import Mathlib

/-!
Verification of the hardware-wallet discovery and session-management subsystem
of the liana GUI (`src/gui/src/hw.rs`).  The Rust code is shallowly embedded:
device records, the session registry and its reconciliation step, the poll-path
classification functions, and the tapminiscript compatibility policy are
translated into executable Lean definitions, and the spec's claims are settled
as theorems about those definitions.
-/

namespace Liana

/-- Master-key fingerprints (`bip32::Fingerprint`, a fixed-size byte identifier)
are modelled as natural numbers; only equality on them is used by the code. -/
abbrev Fingerprint := Nat

/-- Device kinds of the `async_hwi` crate that appear in `hw.rs`. -/
inductive DeviceKind
  | bitbox02
  | coldcard
  | specter
  | specterSimulator
  | jade
  | ledger
  | ledgerSimulator
deriving DecidableEq

/-- `async_hwi::Version { major, minor, patch, prerelease }`. -/
structure Version where
  major : Nat
  minor : Nat
  patch : Nat
  prerelease : Option String
deriving DecidableEq

/-- Modelled from the spec: the `Ord` instance of `async_hwi::Version` is not
part of this repository's sources; the spec prescribes lexicographic
comparison on `(major, minor, patch)` (`v1 >= v2` in
`is_compatible_with_tapminiscript`). -/
def Version.lexGe (v1 v2 : Version) : Bool :=
  if v1.major ≠ v2.major then decide (v1.major > v2.major)
  else if v1.minor ≠ v2.minor then decide (v1.minor > v2.minor)
  else decide (v1.patch ≥ v2.patch)

/-- `bitcoin::Network`; the code only distinguishes `Bitcoin` (mainnet) from
the test networks. -/
inductive Network
  | bitcoin
  | testnet
  | signet
  | regtest
deriving DecidableEq

/-- `UnsupportedReason` from `hw.rs`. -/
inductive UnsupportedReason
  | version (minimalSupportedVersion : String)
  | method (name : String)
  | notPartOfWallet (fingerprint : Fingerprint)
  | wrongNetwork
deriving DecidableEq

/-- `LockedDevice` from `hw.rs`: the owned, single-use unlock continuation.
Its payload (a pairing handle) is opaque to the registry logic, so only the
vendor tag is kept. -/
inductive LockedDevice
  | bitbox02
  | jade
deriving DecidableEq

/-- `HardwareWallet` from `hw.rs`.  The `Arc<Mutex<Option<LockedDevice>>>` of
the `Locked` variant is modelled as `Option LockedDevice` (`none` when the
unlock handle has been consumed); the opaque `Arc<dyn HWI>` capability handle
of the `Supported` variant carries no registry-relevant data and is dropped. -/
inductive HardwareWallet
  | unsupported (id : String) (kind : DeviceKind) (version : Option Version)
      (reason : UnsupportedReason)
  | locked (id : String) (device : Option LockedDevice) (pairingCode : Option String)
      (kind : DeviceKind)
  | supported (id : String) (kind : DeviceKind) (fingerprint : Fingerprint)
      (version : Option Version) (registered : Option Bool) (aliasLabel : Option String)
deriving DecidableEq

/-- `HardwareWallet::id`. -/
def HardwareWallet.id : HardwareWallet → String
  | .locked i _ _ _ => i
  | .unsupported i _ _ _ => i
  | .supported i _ _ _ _ _ => i

/-- `HardwareWallet::kind`. -/
def HardwareWallet.kind : HardwareWallet → DeviceKind
  | .locked _ _ _ k => k
  | .unsupported _ k _ _ => k
  | .supported _ k _ _ _ _ => k

/-- `HardwareWallet::fingerprint`. -/
def HardwareWallet.fingerprint : HardwareWallet → Option Fingerprint
  | .locked _ _ _ _ => none
  | .unsupported _ _ _ _ => none
  | .supported _ _ fp _ _ _ => some fp

/-- `HardwareWallet::is_supported`. -/
def HardwareWallet.isSupported : HardwareWallet → Bool
  | .supported _ _ _ _ _ _ => true
  | _ => false

/-- `HardwareWalletConfig` from `hw.rs` (persisted per-fingerprint device
token of a wallet). -/
structure HardwareWalletConfig where
  kind : String
  fingerprint : Fingerprint
  token : String
deriving DecidableEq

/-- The wallet context consumed read-only by the subsystem
(`app::wallet::Wallet`): its name, descriptor, key-set and stored device
tokens. -/
structure Wallet where
  name : String
  mainDescriptor : String
  descriptorKeys : List Fingerprint
  hardwareWallets : List HardwareWalletConfig
deriving DecidableEq

/-- `async_hwi::Error`, restricted to the variants `hw.rs` distinguishes. -/
inductive HWIErr
  | deviceNotFound
  | networkMismatch
  | device (msg : String)
deriving DecidableEq

/-- `ConnectedList` from `hw.rs`. -/
structure ConnectedList where
  new : List HardwareWallet
  still : List String
deriving DecidableEq

/-- `HardwareWalletMessage` from `hw.rs`. -/
inductive HardwareWalletMessage
  | error (e : String)
  | list (l : ConnectedList)
  | unlocked (id : String) (res : Except HWIErr HardwareWallet)

/-- A background unlock task dispatched by the registry
(`Command::perform` in `HardwareWallets::update`): the session id it will
report back with, and the consumed unlock handle driving it. -/
structure UnlockCmd where
  id : String
  device : LockedDevice
deriving DecidableEq

/-- `HardwareWallets` from `hw.rs`: the session registry.  The
`HashMap<Fingerprint, String>` alias table is modelled as a function. -/
structure HardwareWallets where
  network : Network
  list : List HardwareWallet
  aliases : Fingerprint → Option String
  wallet : Option Wallet

/-- Body of the per-record loop of `HardwareWallets::update` on a `List`
message: a `Supported` record gets its alias recomputed from the alias table,
a `Locked` record has its unlock handle taken (`device.lock().unwrap().take()`
leaves `None` behind), other records are unchanged. -/
def updateRecord (aliases : Fingerprint → Option String) :
    HardwareWallet → HardwareWallet
  | .supported i k fp v reg _ => .supported i k fp v reg (aliases fp)
  | .locked i _ pc k => .locked i none pc k
  | hw => hw

/-- The unlock task dispatched for a record by the per-record loop of
`HardwareWallets::update`: only a `Locked` record whose handle is still
present spawns one. -/
def lockedCmd : HardwareWallet → Option UnlockCmd
  | .locked i (some d) _ _ => some ⟨i, d⟩
  | _ => none

/-- Alias recomputation applied to the record installed by an `Unlocked`
completion (`HardwareWallets::update`, `Ok(hw)` arm): only a `Supported`
record has its alias resolved. -/
def resolveAlias (aliases : Fingerprint → Option String) :
    HardwareWallet → HardwareWallet
  | .supported i k fp v reg _ => .supported i k fp v reg (aliases fp)
  | hw => hw

/-- `self.list.iter_mut().find(..)` of the `Unlocked`/`Ok` arm of
`HardwareWallets::update`: replace the first `Locked` record whose id equals
the resolved record's id with the resolved record (alias recomputed). -/
def replaceUnlocked (aliases : Fingerprint → Option String) (hw : HardwareWallet) :
    List HardwareWallet → List HardwareWallet
  | [] => []
  | r :: rest =>
    match r with
    | .locked lid d pc k =>
        if lid = hw.id then resolveAlias aliases hw :: rest
        else .locked lid d pc k :: replaceUnlocked aliases hw rest
    | r => r :: replaceUnlocked aliases hw rest

/-- `HardwareWallets::update` from `hw.rs`.  Returns the updated registry and
the list of dispatched background unlock tasks (the returned `Command`). -/
def HardwareWallets.update (s : HardwareWallets) :
    HardwareWalletMessage → Except HWIErr (HardwareWallets × List UnlockCmd)
  | .error e => .error (.device e)
  | .list l =>
      let kept := s.list.filter (fun hw => l.still.contains hw.id)
      let merged := kept ++ l.new
      .ok ({ s with list := merged.map (updateRecord s.aliases) },
        merged.filterMap lockedCmd)
  | .unlocked i res =>
      match res with
      | .error _ => .ok ({ s with list := s.list.filter (fun hw => hw.id ≠ i) }, [])
      | .ok hw => .ok ({ s with list := replaceUnlocked s.aliases hw s.list }, [])

/-- `HardwareWallets::set_alias` from `hw.rs`: remove the label from every
other fingerprint in the table, update record aliases in the tracked list,
then insert the new mapping. -/
def HardwareWallets.setAlias (s : HardwareWallets) (fg : Fingerprint)
    (newAlias : String) : HardwareWallets :=
  let retained : Fingerprint → Option String := fun fp =>
    match s.aliases fp with
    | some a => if a = newAlias then none else some a
    | none => none
  let updatedList := s.list.map (fun hw =>
    match hw with
    | .supported i k fp v reg al =>
        if fp = fg then .supported i k fp v reg (some newAlias)
        else if al = some newAlias then .supported i k fp v reg none
        else .supported i k fp v reg al
    | hw => hw)
  { s with
    aliases := fun fp => if fp = fg then some newAlias else retained fp,
    list := updatedList }

deriving instance DecidableEq for Except

/-- The identity/version queries a connected device answers during
classification (`get_master_fingerprint`, `get_version` of the `HWI`
trait); classification is a pure function of these answers. -/
structure DeviceBehavior where
  getMasterFingerprint : Except HWIErr Fingerprint
  getVersion : Option Version
deriving DecidableEq

/-- Records and still-ids one poll step pushes onto `state.hws` and
`state.still` of `HwState`. -/
structure PollEffect where
  still : List String
  hws : List HardwareWallet
deriving DecidableEq

/-- `HardwareWallet::new` from `hw.rs`: read kind, fingerprint (an error
propagates to the caller) and version, and build a `Supported` record with the
alias looked up by fingerprint. -/
def HardwareWallet.new (i : String) (k : DeviceKind) (device : DeviceBehavior)
    (aliases : Option (Fingerprint → Option String)) :
    Except HWIErr HardwareWallet :=
  match device.getMasterFingerprint with
  | .error e => .error e
  | .ok fp =>
      .ok (.supported i k fp device.getVersion none
        (Option.bind aliases (fun m => m fp)))

/-- `ledger_version_supported` from `hw.rs`. -/
def ledger_version_supported : Option Version → Bool
  | some v =>
      if v.major ≥ 2 then
        if v.major = 2 then v.minor ≥ 1 else true
      else false
  | none => false

/-- Body of the per-endpoint loop of `poll_ledger` in `hw.rs`: an id already
in `connected_supported_hws` is pushed to `still`; otherwise the device is
connected and classified, a fingerprint-read failure yielding an
`Unsupported` record with reason `Version("2.1.0")`. -/
def poll_ledger_endpoint (connectedSupportedHws : List String)
    (wallet : Option Wallet) (keysAliases : Fingerprint → Option String)
    (i : String) (connect : Except HWIErr DeviceBehavior) : PollEffect :=
  if connectedSupportedHws.contains i then ⟨[i], []⟩
  else
    match connect with
    | .ok dev =>
        match dev.getMasterFingerprint with
        | .ok fp =>
            let version := dev.getVersion
            if ledger_version_supported version then
              let registered :=
                match wallet with
                | some w =>
                    (w.hardwareWallets.find? (fun cfg => cfg.fingerprint == fp)).isSome
                | none => false
              ⟨[], [.supported i .ledger fp version (some registered) (keysAliases fp)]⟩
            else ⟨[], [.unsupported i .ledger version (.version "2.1.0")]⟩
        | .error _ => ⟨[], [.unsupported i .ledger none (.version "2.1.0")]⟩
    | .error _ => ⟨[], []⟩

/-- `poll_ledger_simulator` from `hw.rs`, given the result of
`LedgerSimulator::try_connect` (the fixed session id is
`"ledger-simulator"`; absence of the simulator yields no effect). -/
def poll_ledger_simulator (connectedSupportedHws : List String)
    (wallet : Option Wallet) (keysAliases : Fingerprint → Option String)
    (connect : Except HWIErr DeviceBehavior) : PollEffect :=
  match connect with
  | .ok dev =>
      let i := "ledger-simulator"
      if connectedSupportedHws.contains i then ⟨[i], []⟩
      else
        match dev.getMasterFingerprint with
        | .ok fp =>
            let version := dev.getVersion
            if ledger_version_supported version then
              let registered :=
                match wallet with
                | some w =>
                    (w.hardwareWallets.find? (fun cfg => cfg.fingerprint == fp)).isSome
                | none => false
              ⟨[], [.supported i .ledgerSimulator fp version (some registered)
                (keysAliases fp)]⟩
            else ⟨[], [.unsupported i .ledgerSimulator version (.version "2.1.0")]⟩
        | .error _ => ⟨[], [.unsupported i .ledgerSimulator none (.version "2.1.0")]⟩
  | .error _ => ⟨[], []⟩

/-- The observable outcomes of one serial port probe in `poll_specter`:
whether `Specter::new` succeeded and whether the 500 ms
`tokio::time::timeout` around `device.fingerprint()` returned before
elapsing. -/
structure SpecterPortBehavior where
  newDevice : Except String DeviceBehavior
  fingerprintWithinTimeout : Bool
deriving DecidableEq

/-- Body of the per-port loop of `poll_specter` in `hw.rs`: a known id is
pushed to `still`; otherwise the port is probed under a timeout and
classified through `HardwareWallet::new`, every failure being logged and
dropped. -/
def poll_specter_port (connectedSupportedHws : List String)
    (keysAliases : Fingerprint → Option String) (port : String)
    (behavior : SpecterPortBehavior) : PollEffect :=
  let i := "specter-" ++ port
  if connectedSupportedHws.contains i then ⟨[i], []⟩
  else
    match behavior.newDevice with
    | .error _ => ⟨[], []⟩
    | .ok dev =>
        if behavior.fingerprintWithinTimeout then
          match HardwareWallet.new i .specter dev (some keysAliases) with
          | .ok hw => ⟨[], [hw]⟩
          | .error _ => ⟨[], []⟩
        else ⟨[], []⟩

/-- `poll_specter_simulator` from `hw.rs`, given the result of
`SpecterSimulator::try_connect`. -/
def poll_specter_simulator (connectedSupportedHws : List String)
    (keysAliases : Fingerprint → Option String)
    (connect : Except HWIErr DeviceBehavior) : PollEffect :=
  match connect with
  | .ok dev =>
      let i := "specter-simulator"
      if connectedSupportedHws.contains i then ⟨[i], []⟩
      else
        match HardwareWallet.new i .specterSimulator dev (some keysAliases) with
        | .ok hw => ⟨[], [hw]⟩
        | .error _ => ⟨[], []⟩
  | .error _ => ⟨[], []⟩

/-- The observable outcomes of opening a Coldcard in `handle_coldcard`:
the advertised serial number and the result of `Coldcard::open`. -/
structure ColdcardBehavior where
  serialNumber : Option String
  openDevice : Except String DeviceBehavior
deriving DecidableEq

/-- `handle_coldcard` from `hw.rs`: a known id is pushed to `still`;
otherwise the device is opened and classified through
`HardwareWallet::new`, a failure being logged and dropped. -/
def handle_coldcard (connectedSupportedHws : List String)
    (keysAliases : Fingerprint → Option String) (i : String)
    (behavior : ColdcardBehavior) : PollEffect :=
  if connectedSupportedHws.contains i then ⟨[i], []⟩
  else
    match behavior.serialNumber with
    | none => ⟨[], []⟩
    | some _ =>
        match behavior.openDevice with
        | .error _ => ⟨[], []⟩
        | .ok dev =>
            match HardwareWallet.new i .coldcard dev (some keysAliases) with
            | .ok hw => ⟨[], [hw]⟩
            | .error _ => ⟨[], []⟩

/-- `jade::api::JadeNetworks`: the network space a Jade is configured for.
Only `Main` and `All` are inspected by `hw.rs`. -/
inductive JadeNetworks
  | main
  | test
  | all
deriving DecidableEq

/-- `jade::api::JadeState`. -/
inductive JadeState
  | locked
  | temp
  | uninit
  | unsaved
  | ready
deriving DecidableEq

/-- The `get_info` answer of a Jade as used by `handle_jade_device`;
`version` is the result of `async_hwi::parse_version(&info.jade_version)`. -/
structure JadeInfo where
  jadeNetworks : JadeNetworks
  jadeState : JadeState
  version : Option Version
deriving DecidableEq

/-- The queries a Jade answers during `handle_jade_device`. -/
structure JadeDevice where
  info : Except HWIErr JadeInfo
  getVersion : Option Version
  getMasterFingerprint : Except HWIErr Fingerprint
  isWalletRegistered : Except HWIErr Bool
deriving DecidableEq

/-- `handle_jade_device` from `hw.rs`: network check, then the
locked/ready state machine with fingerprint, key-set and registration
checks. -/
def handle_jade_device (i : String) (network : Network) (device : JadeDevice)
    (wallet : Option Wallet)
    (keysAliases : Option (Fingerprint → Option String)) :
    Except HWIErr HardwareWallet :=
  match device.info with
  | .error e => .error e
  | .ok info =>
      if (network = Network.bitcoin ∧ info.jadeNetworks ≠ JadeNetworks.main ∧
            info.jadeNetworks ≠ JadeNetworks.all) ∨
          (network ≠ Network.bitcoin ∧ info.jadeNetworks = JadeNetworks.main) then
        .ok (.unsupported i .jade info.version .wrongNetwork)
      else
        match info.jadeState with
        | .locked | .temp | .uninit | .unsaved =>
            .ok (.locked i (some .jade) none .jade)
        | .ready =>
            let version := device.getVersion
            match device.getMasterFingerprint with
            | .error .networkMismatch =>
                .ok (.unsupported i .jade version .wrongNetwork)
            | .error e => .error e
            | .ok fp =>
                let al := Option.bind keysAliases (fun m => m fp)
                match wallet with
                | some w =>
                    if w.descriptorKeys.contains fp then
                      match device.isWalletRegistered with
                      | .error e => .error e
                      | .ok registered =>
                          .ok (.supported i .jade fp version (some registered) al)
                    else
                      .ok (.unsupported i .jade version (.notPartOfWallet fp))
                | none =>
                    .ok (.supported i .jade fp version (some false) al)

/-- The wallet-key-set downgrade loop of `hw_poll` in `hw.rs` (lines
433-454): with a wallet supplied, every freshly scanned `Supported` record
whose fingerprint is not among the wallet's descriptor keys is replaced by
`Unsupported(NotPartOfWallet(fingerprint))`. -/
def downgrade_not_in_wallet (wallet : Option Wallet)
    (hws : List HardwareWallet) : List HardwareWallet :=
  match wallet with
  | none => hws
  | some w =>
      hws.map (fun hw =>
        match hw with
        | .supported i k fp v _ _ =>
            if w.descriptorKeys.contains fp then hw
            else .unsupported i k v (.notPartOfWallet fp)
        | hw => hw)

/-- The `filter_map` of `hw_poll` building `connected_supported_hws`:
`Locked` and `Supported` records contribute their id, `Unsupported`
records contribute nothing. -/
def lockedOrSupportedId : HardwareWallet → Option String
  | .locked i _ _ _ => some i
  | .supported i _ _ _ _ _ => some i
  | .unsupported _ _ _ _ => none

/-- The `connected_supported_hws` list computed at the end of `hw_poll` in
`hw.rs` (lines 456-465): the still-connected ids chained with the ids of
the `Locked` and `Supported` records scanned this cycle. -/
def connected_supported_ids (still : List String)
    (hws : List HardwareWallet) : List String :=
  still ++ hws.filterMap lockedOrSupportedId

/-- `DEVICES_COMPATIBLE_WITH_TAPMINISCRIPT` from `hw.rs`: kind and minimal
version of devices supporting tapminiscript. -/
def DEVICES_COMPATIBLE_WITH_TAPMINISCRIPT : List (DeviceKind × Option Version) :=
  [ (.ledger, some ⟨2, 2, 0, none⟩),
    (.specter, none),
    (.specterSimulator, none),
    (.coldcard, some ⟨6, 3, 3, none⟩) ]

/-- `is_compatible_with_tapminiscript` from `hw.rs`. -/
def is_compatible_with_tapminiscript (deviceKind : DeviceKind)
    (version : Option Version) : Bool :=
  DEVICES_COMPATIBLE_WITH_TAPMINISCRIPT.any (fun p =>
    if deviceKind = p.1 then
      match version, p.2 with
      | some v1, some v2 => Version.lexGe v1 v2
      | none, some _ => false
      | some _, none => true
      | none, none => true
    else false)

lemma lexGe_refl (v : Version) : Version.lexGe v v = true := by
  simp [Version.lexGe]

/-- A device kind absent from the compatibility table is incompatible for
every version. -/
lemma compat_absent (kind : DeviceKind)
    (h : kind ∉ DEVICES_COMPATIBLE_WITH_TAPMINISCRIPT.map Prod.fst)
    (v : Option Version) :
    is_compatible_with_tapminiscript kind v = false := by
  cases kind <;>
    simp_all [is_compatible_with_tapminiscript, DEVICES_COMPATIBLE_WITH_TAPMINISCRIPT]

/-- Membership in the concrete compatibility table is one of its four
entries. -/
lemma mem_table_elim {kind : DeviceKind} {mv : Option Version}
    (h : (kind, mv) ∈ DEVICES_COMPATIBLE_WITH_TAPMINISCRIPT) :
    (kind = .ledger ∧ mv = some ⟨2, 2, 0, none⟩) ∨
    (kind = .specter ∧ mv = none) ∨
    (kind = .specterSimulator ∧ mv = none) ∨
    (kind = .coldcard ∧ mv = some ⟨6, 3, 3, none⟩) := by
  simp [DEVICES_COMPATIBLE_WITH_TAPMINISCRIPT, Prod.ext_iff] at h
  tauto

/-- C6: for every `HardwareWallet` record, `fingerprint()` returns `Some` if
and only if `is_supported()` returns true; `Locked` and `Unsupported`
records return `None`. -/
theorem c6_fingerprint_iff_supported :
    ∀ hw : HardwareWallet, hw.fingerprint.isSome = hw.isSupported := by
  intro hw
  cases hw <;> rfl

/-- C4: the compatibility predicate returns exactly the spec's test vectors:
Ledger 2.2.0 is compatible, Ledger 2.1.9 is not, Specter with unknown
version is compatible (no-constraint entry), and any kind absent from the
static table — in particular BitBox02 and Jade — is incompatible for every
version, including 99.0.0. -/
theorem c4_compat_vectors :
    is_compatible_with_tapminiscript .ledger (some ⟨2, 2, 0, none⟩) = true ∧
    is_compatible_with_tapminiscript .ledger (some ⟨2, 1, 9, none⟩) = false ∧
    is_compatible_with_tapminiscript .specter none = true ∧
    (∀ kind, kind ∉ DEVICES_COMPATIBLE_WITH_TAPMINISCRIPT.map Prod.fst →
      ∀ v, is_compatible_with_tapminiscript kind v = false) ∧
    is_compatible_with_tapminiscript .bitbox02 (some ⟨99, 0, 0, none⟩) = false ∧
    is_compatible_with_tapminiscript .jade (some ⟨99, 0, 0, none⟩) = false := by
  refine ⟨by decide, by decide, by decide, ?_, by decide, by decide⟩
  exact compat_absent

/-- C4 witness: the absent-kind clause of `c4_compat_vectors` evaluated at
the Jade kind and version 3.0.0. -/
theorem c4_compat_vectors_witness :
    is_compatible_with_tapminiscript .jade (some ⟨3, 0, 0, none⟩) = false :=
  c4_compat_vectors.2.2.2.1 .jade (by decide) (some ⟨3, 0, 0, none⟩)

/-- C5 counterexample: the claim states that an unknown version is
incompatible for every device kind, but the Specter entry of the table has
no minimal version and the predicate answers true for it with no version
known. -/
theorem c5_counterexample :
    is_compatible_with_tapminiscript .specter none = true := by decide

/-- C5 amended: with an unknown version the predicate is false for kinds
absent from the table and for kinds whose entry carries a minimal version,
but true for kinds whose entry has no minimal version; for a kind with a
minimal version the comparison is lexicographic on (major, minor, patch)
and the minimum is inclusive. -/
theorem c5_version_rule :
    (∀ kind, kind ∉ DEVICES_COMPATIBLE_WITH_TAPMINISCRIPT.map Prod.fst →
      is_compatible_with_tapminiscript kind none = false) ∧
    (∀ kind minV, (kind, some minV) ∈ DEVICES_COMPATIBLE_WITH_TAPMINISCRIPT →
      is_compatible_with_tapminiscript kind none = false) ∧
    (∀ kind, (kind, none) ∈ DEVICES_COMPATIBLE_WITH_TAPMINISCRIPT →
      is_compatible_with_tapminiscript kind none = true) ∧
    (∀ kind minV, (kind, some minV) ∈ DEVICES_COMPATIBLE_WITH_TAPMINISCRIPT →
      ∀ v, is_compatible_with_tapminiscript kind (some v) = Version.lexGe v minV) ∧
    (∀ kind minV, (kind, some minV) ∈ DEVICES_COMPATIBLE_WITH_TAPMINISCRIPT →
      is_compatible_with_tapminiscript kind (some minV) = true) := by
  refine ⟨fun kind h => compat_absent kind h none, ?_, ?_, ?_, ?_⟩
  · intro kind minV h
    rcases mem_table_elim h with ⟨hk, hv⟩ | ⟨hk, hv⟩ | ⟨hk, hv⟩ | ⟨hk, hv⟩ <;>
      subst hk <;> first | rfl | cases hv
  · intro kind h
    rcases mem_table_elim h with ⟨hk, hv⟩ | ⟨hk, hv⟩ | ⟨hk, hv⟩ | ⟨hk, hv⟩ <;>
      subst hk <;> first | rfl | cases hv
  · intro kind minV h v
    rcases mem_table_elim h with ⟨hk, hv⟩ | ⟨hk, hv⟩ | ⟨hk, hv⟩ | ⟨hk, hv⟩ <;>
      subst hk <;> first
      | (injection hv with hv; subst hv;
         simp [is_compatible_with_tapminiscript,
           DEVICES_COMPATIBLE_WITH_TAPMINISCRIPT])
      | cases hv
  · intro kind minV h
    rcases mem_table_elim h with ⟨hk, hv⟩ | ⟨hk, hv⟩ | ⟨hk, hv⟩ | ⟨hk, hv⟩ <;>
      subst hk <;> first
      | (injection hv with hv; subst hv; decide)
      | cases hv

/-- C5 witness: the inclusive-minimum clause of `c5_version_rule` evaluated
at the Coldcard entry. -/
theorem c5_version_rule_witness :
    is_compatible_with_tapminiscript .coldcard (some ⟨6, 3, 3, none⟩) = true :=
  c5_version_rule.2.2.2.2 .coldcard ⟨6, 3, 3, none⟩ (by decide)

/-- C9: classification of a Jade produces `Unsupported(WrongNetwork)` when
the target network is a test network and the device is configured for
mainnet only, and symmetrically when the target is mainnet and the device's
network space is neither `Main` nor `All`. -/
theorem c9_jade_wrong_network (i : String) (network : Network)
    (device : JadeDevice) (wallet : Option Wallet)
    (keysAliases : Option (Fingerprint → Option String)) (info : JadeInfo)
    (hinfo : device.info = .ok info)
    (hnet : (network ≠ .bitcoin ∧ info.jadeNetworks = .main) ∨
      (network = .bitcoin ∧ info.jadeNetworks ≠ .main ∧
        info.jadeNetworks ≠ .all)) :
    handle_jade_device i network device wallet keysAliases =
      .ok (.unsupported i .jade info.version .wrongNetwork) := by
  unfold handle_jade_device
  rw [hinfo]
  exact if_pos hnet.symm

/-- Concrete Jade answers for the C9 witness: a mainnet-only device in the
ready state. -/
def c9Device : JadeDevice :=
  ⟨.ok ⟨.main, .ready, some ⟨1, 2, 3, none⟩⟩, none, .ok 5, .ok true⟩

/-- C9 witness: `c9_jade_wrong_network` evaluated on a testnet target and a
mainnet-only Jade. -/
theorem c9_jade_wrong_network_witness :
    handle_jade_device "jade-p" .testnet c9Device none none =
      .ok (.unsupported "jade-p" .jade (some ⟨1, 2, 3, none⟩) .wrongNetwork) :=
  c9_jade_wrong_network "jade-p" .testnet c9Device none none
    ⟨.main, .ready, some ⟨1, 2, 3, none⟩⟩ rfl (Or.inl ⟨by decide, rfl⟩)

/-- C2 counterexample: on the Ledger scan path a fingerprint-read failure is
not discarded — the device is recorded as `Unsupported` with reason
`Version("2.1.0")`, refuting the claim that no record is added for such a
failure. -/
theorem c2_counterexample :
    (poll_ledger_endpoint [] none (fun _ => none) "ledger-0"
        (.ok ⟨.error (.device "busy"), none⟩)).hws =
      [.unsupported "ledger-0" .ledger none (.version "2.1.0")] ∧
    (poll_ledger_endpoint [] none (fun _ => none) "ledger-0"
        (.ok ⟨.error (.device "busy"), none⟩)).hws ≠ [] := by
  exact ⟨rfl, by decide⟩

/-- C2 amended: when the fingerprint read fails, the Specter serial path,
the Specter simulator path and the Coldcard path drop the device from the
cycle (no record is added), while the Ledger and Ledger-simulator paths
record the device as `Unsupported` with reason `Version("2.1.0")`. -/
theorem c2_fingerprint_failure_paths (connected : List String)
    (wallet : Option Wallet) (keysAliases : Fingerprint → Option String)
    (port i : String) (dev : DeviceBehavior) (e : HWIErr)
    (b : SpecterPortBehavior) (cc : ColdcardBehavior)
    (hfp : dev.getMasterFingerprint = .error e)
    (hb : b.newDevice = .ok dev)
    (hcc : cc.openDevice = .ok dev)
    (hid : i ∉ connected)
    (hsim : "ledger-simulator" ∉ connected) :
    (poll_specter_port connected keysAliases port b).hws = [] ∧
    (poll_specter_simulator connected keysAliases (.ok dev)).hws = [] ∧
    (handle_coldcard connected keysAliases i cc).hws = [] ∧
    (poll_ledger_endpoint connected wallet keysAliases i (.ok dev)).hws =
      [.unsupported i .ledger none (.version "2.1.0")] ∧
    (poll_ledger_simulator connected wallet keysAliases (.ok dev)).hws =
      [.unsupported "ledger-simulator" .ledgerSimulator none
        (.version "2.1.0")] := by
  refine ⟨?_, ?_, ?_, ?_, ?_⟩
  · by_cases hc : ("specter-" ++ port) ∈ connected <;>
      cases ht : b.fingerprintWithinTimeout <;>
      simp [poll_specter_port, hc, hb, ht, HardwareWallet.new, hfp]
  · by_cases hc : "specter-simulator" ∈ connected <;>
      simp [poll_specter_simulator, hc, HardwareWallet.new, hfp]
  · cases hs : cc.serialNumber <;>
      simp [handle_coldcard, hid, hs, hcc, HardwareWallet.new, hfp]
  · simp [poll_ledger_endpoint, hid, hfp]
  · simp [poll_ledger_simulator, hsim, hfp]

/-- Concrete device answers for the C2 witness: the fingerprint read fails
with a transport error. -/
def c2Device : DeviceBehavior := ⟨.error (.device "busy"), none⟩

/-- C2 witness: `c2_fingerprint_failure_paths` evaluated on concrete
behaviors whose fingerprint read fails. -/
theorem c2_fingerprint_failure_paths_witness :
    (poll_specter_port [] (fun _ => none) "p" ⟨.ok c2Device, true⟩).hws = [] ∧
    (poll_specter_simulator [] (fun _ => none) (.ok c2Device)).hws = [] ∧
    (handle_coldcard [] (fun _ => none) "coldcard-0"
      ⟨some "sn", .ok c2Device⟩).hws = [] ∧
    (poll_ledger_endpoint [] none (fun _ => none) "ledger-1"
      (.ok c2Device)).hws =
      [.unsupported "ledger-1" .ledger none (.version "2.1.0")] ∧
    (poll_ledger_simulator [] none (fun _ => none) (.ok c2Device)).hws =
      [.unsupported "ledger-simulator" .ledgerSimulator none
        (.version "2.1.0")] :=
  c2_fingerprint_failure_paths [] none (fun _ => none) "p" "ledger-1"
    c2Device (.device "busy") ⟨.ok c2Device, true⟩ ⟨some "sn", .ok c2Device⟩
    rfl rfl rfl (by decide) (by decide)

lemma replaceUnlocked_not_found (aliases : Fingerprint → Option String)
    (hw : HardwareWallet) (l : List HardwareWallet)
    (h : ∀ r ∈ l, r.id ≠ hw.id) : replaceUnlocked aliases hw l = l := by
  induction l with
  | nil => rfl
  | cons r rest ih =>
      have hr : r.id ≠ hw.id := h r (List.mem_cons_self r rest)
      have hrest : ∀ x ∈ rest, x.id ≠ hw.id :=
        fun x hx => h x (List.mem_cons_of_mem r hx)
      cases r with
      | locked lid d pc k =>
          have hlid : ¬lid = hw.id := hr
          simp [replaceUnlocked, hlid, ih hrest]
      | unsupported i k v reason => simp [replaceUnlocked, ih hrest]
      | supported i k fp v reg a => simp [replaceUnlocked, ih hrest]

/-- C8: an `Unlocked` completion event whose session id matches no tracked
record leaves the registry unchanged and returns successfully with no
dispatched commands, for both the `Ok` and the `Err` outcome. -/
theorem c8_stale_completion (s : HardwareWallets) (i : String)
    (res : Except HWIErr HardwareWallet)
    (hid : ∀ r ∈ s.list, r.id ≠ i)
    (hok : ∀ hw, res = .ok hw → ∀ r ∈ s.list, r.id ≠ hw.id) :
    s.update (.unlocked i res) = .ok (s, []) := by
  cases res with
  | error e =>
      have hfilter : s.list.filter (fun hw => hw.id ≠ i) = s.list :=
        List.filter_eq_self.mpr (fun r hr => by simpa using hid r hr)
      show Except.ok ({ s with list := s.list.filter (fun hw => hw.id ≠ i) }, []) =
        .ok (s, [])
      rw [hfilter]
  | ok hw =>
      have hrep : replaceUnlocked s.aliases hw s.list = s.list :=
        replaceUnlocked_not_found s.aliases hw s.list (hok hw rfl)
      show Except.ok ({ s with list := replaceUnlocked s.aliases hw s.list }, []) =
        .ok (s, [])
      rw [hrep]

/-- Concrete registry for the C8 witness: one tracked locked record. -/
def c8State : HardwareWallets :=
  ⟨.bitcoin, [.locked "dev-1" (some .jade) none .jade], fun _ => none, none⟩

/-- C8 witness: `c8_stale_completion` evaluated on a failure completion for
the untracked id "dev-2". -/
theorem c8_stale_completion_witness :
    c8State.update (.unlocked "dev-2" (.error .deviceNotFound)) =
      .ok (c8State, []) :=
  c8_stale_completion c8State "dev-2" (.error .deviceNotFound) (by decide)
    (fun hw h => nomatch h)

/-- After `set_alias(fg, x)` no fingerprint other than `fg` maps to `x` in
the alias table. -/
lemma setAlias_exclusive (s : HardwareWallets) (fg : Fingerprint) (x : String) :
    ((s.setAlias fg x).aliases fg = some x) ∧
    (∀ fp, fp ≠ fg → (s.setAlias fg x).aliases fp ≠ some x) := by
  constructor
  · simp [HardwareWallets.setAlias]
  · intro fp hne
    simp only [HardwareWallets.setAlias, if_neg hne]
    cases ha : s.aliases fp with
    | none => simp
    | some a =>
        by_cases hax : a = x
        · simp [hax]
        · simp [hax]

/-- C7: after `set_alias(fg, x)` the alias table maps `fg` to `x` and no
other fingerprint maps to `x`; after the next `List` reconciliation every
`Supported` record with fingerprint `fg` carries alias `x` and no
`Supported` record with a different fingerprint does. -/
theorem c7_alias_exclusive (s : HardwareWallets) (fg : Fingerprint) (x : String)
    (still : List String) (new : List HardwareWallet) :
    ((s.setAlias fg x).aliases fg = some x) ∧
    (∀ fp, fp ≠ fg → (s.setAlias fg x).aliases fp ≠ some x) ∧
    (∀ s' cmds, (s.setAlias fg x).update (.list ⟨new, still⟩) = .ok (s', cmds) →
      ∀ i k fp v reg a, HardwareWallet.supported i k fp v reg a ∈ s'.list →
        (fp = fg → a = some x) ∧ (fp ≠ fg → a ≠ some x)) := by
  obtain ⟨h1, h2⟩ := setAlias_exclusive s fg x
  refine ⟨h1, h2, ?_⟩
  intro s' cmds hupd i k fp v reg a hmem
  have hlist : s'.list =
      (((s.setAlias fg x).list.filter (fun hw => still.contains hw.id)) ++ new).map
        (updateRecord (s.setAlias fg x).aliases) := by
    have h := hupd
    simp only [HardwareWallets.update, Except.ok.injEq, Prod.mk.injEq] at h
    rw [← h.1]
  rw [hlist] at hmem
  simp only [List.mem_map] at hmem
  obtain ⟨r0, _, heq⟩ := hmem
  cases r0 with
  | unsupported i0 k0 v0 reason0 => exact absurd heq (by simp [updateRecord])
  | locked i0 d0 pc0 k0 => exact absurd heq (by simp [updateRecord])
  | supported i0 k0 fp0 v0 reg0 a0 =>
      simp only [updateRecord, HardwareWallet.supported.injEq] at heq
      obtain ⟨_, _, hfp, _, _, ha⟩ := heq
      subst hfp
      constructor
      · intro hfg; subst hfg; rw [← ha, h1]
      · intro hne; rw [← ha]; exact h2 fp0 hne

/-- Concrete registry for the C7 witness. -/
def c7State : HardwareWallets := ⟨.bitcoin, [], fun _ => none, none⟩

/-- C7 witness: `c7_alias_exclusive` evaluated at fingerprint 1 and label
"X"; fingerprint 2 does not map to "X" afterwards. -/
theorem c7_alias_exclusive_witness :
    ((c7State.setAlias 1 "X").aliases 1 = some "X") ∧
    ((c7State.setAlias 1 "X").aliases 2 ≠ some "X") :=
  ⟨(c7_alias_exclusive c7State 1 "X" [] []).1,
   (c7_alias_exclusive c7State 1 "X" [] []).2.1 2 (by decide)⟩

/-- Concrete wallet for the C3 counterexample and witness: its key set is
the single fingerprint 2. -/
def c3Wallet : Wallet := ⟨"w", "desc", [2], []⟩

/-- Concrete registry for the C3 counterexample: it tracks a `Supported`
record whose fingerprint 1 is not in the wallet's key set. -/
def c3State : HardwareWallets :=
  ⟨.bitcoin, [.supported "dev-a" .ledger 1 none none none], fun _ => none,
    some c3Wallet⟩

/-- C3 counterexample: a `Supported` record kept through the still-connected
list whose fingerprint is not in the supplied wallet's key set is not
downgraded by the registry reconciliation — it survives the `List` update
unchanged, refuting the claim for records tracked in previous cycles. -/
theorem c3_counterexample :
    c3State.wallet = some c3Wallet ∧
    c3Wallet.descriptorKeys.contains 1 = false ∧
    (c3State.update (.list ⟨[], ["dev-a"]⟩)).map (fun r => r.1.list) =
      .ok [.supported "dev-a" .ledger 1 none none none] :=
  ⟨rfl, by decide, by rfl⟩

/-- C3 amended: the wallet-key-set downgrade of `hw_poll` maps every freshly
scanned `Supported` record whose fingerprint is outside the wallet's key
set to `Unsupported(NotPartOfWallet(fingerprint))`, and afterwards every
scanned `Supported` record's fingerprint is in the key set; records kept
from previous cycles are not re-examined. -/
theorem c3_downgrade_scanned_only (w : Wallet) (hws : List HardwareWallet) :
    (∀ r ∈ downgrade_not_in_wallet (some w) hws,
      ∀ i k fp v reg a, r = HardwareWallet.supported i k fp v reg a →
        w.descriptorKeys.contains fp = true) ∧
    (∀ i k fp v reg a, HardwareWallet.supported i k fp v reg a ∈ hws →
      w.descriptorKeys.contains fp = false →
      HardwareWallet.unsupported i k v (.notPartOfWallet fp) ∈
        downgrade_not_in_wallet (some w) hws) := by
  constructor
  · intro r hr i k fp v reg a hre
    subst hre
    simp only [downgrade_not_in_wallet, List.mem_map] at hr
    obtain ⟨r0, _, heq⟩ := hr
    cases r0 with
    | unsupported i0 k0 v0 reason0 => exact absurd heq (by simp)
    | locked i0 d0 pc0 k0 => exact absurd heq (by simp)
    | supported i0 k0 fp0 v0 reg0 a0 =>
        by_cases hc' : fp0 ∈ w.descriptorKeys
        · simp [hc'] at heq
          obtain ⟨-, -, hfp, -, -, -⟩ := heq
          rw [← hfp]
          simpa using hc'
        · simp [hc'] at heq
  · intro i k fp v reg a hmem hc
    have hc' : fp ∉ w.descriptorKeys := by simpa using hc
    simp only [downgrade_not_in_wallet]
    exact List.mem_map.mpr ⟨.supported i k fp v reg a, hmem, by simp [hc']⟩

/-- C3 witness: `c3_downgrade_scanned_only` evaluated on a scanned record
with fingerprint 1 and the concrete wallet whose key set is {2}. -/
theorem c3_downgrade_scanned_only_witness :
    HardwareWallet.unsupported "dev-a" .ledger none (.notPartOfWallet 1) ∈
      downgrade_not_in_wallet (some c3Wallet)
        [.supported "dev-a" .ledger 1 none none none] :=
  (c3_downgrade_scanned_only c3Wallet
      [.supported "dev-a" .ledger 1 none none none]).2
    "dev-a" .ledger 1 none none none (by decide) (by decide)

lemma updateRecord_id (aliases : Fingerprint → Option String)
    (hw : HardwareWallet) : (updateRecord aliases hw).id = hw.id := by
  cases hw <;> rfl

lemma updateRecord_idem (aliases : Fingerprint → Option String)
    (hw : HardwareWallet) :
    updateRecord aliases (updateRecord aliases hw) = updateRecord aliases hw := by
  cases hw <;> rfl

/-- Filtering on the id commutes with the per-record reconciliation step,
which preserves ids. -/
lemma filter_map_updateRecord (aliases : Fingerprint → Option String)
    (q : String → Bool) (l : List HardwareWallet) :
    (l.map (updateRecord aliases)).filter (fun hw => q hw.id) =
      (l.filter (fun hw => q hw.id)).map (updateRecord aliases) := by
  induction l with
  | nil => rfl
  | cons h t ih =>
      rw [List.map_cons, List.filter_cons, List.filter_cons, updateRecord_id]
      cases hq : q h.id <;> simp [hq, ih]

lemma map_updateRecord_idem (aliases : Fingerprint → Option String)
    (l : List HardwareWallet) :
    (l.map (updateRecord aliases)).map (updateRecord aliases) =
      l.map (updateRecord aliases) := by
  induction l with
  | nil => rfl
  | cons h t ih => simp [updateRecord_idem, ih]

lemma filter_idem {α : Type} (p : α → Bool) (l : List α) :
    (l.filter p).filter p = l.filter p := by
  induction l with
  | nil => rfl
  | cons h t ih => cases hp : p h <;> simp [List.filter_cons, hp, ih]

/-- The reconciliation result of `HardwareWallets::update` on a `List`
message, as an equation. -/
lemma update_list_eq (s : HardwareWallets) (l : ConnectedList) :
    s.update (.list l) =
      .ok (⟨s.network,
          ((s.list.filter (fun hw => l.still.contains hw.id)) ++ l.new).map
            (updateRecord s.aliases),
          s.aliases, s.wallet⟩,
        ((s.list.filter (fun hw => l.still.contains hw.id)) ++ l.new).filterMap
          lockedCmd) := rfl

/-- Concrete registry, record and message for the C1 counterexample. -/
def c1Record : HardwareWallet := .unsupported "dev-a" .specter none .wrongNetwork

/-- Concrete empty registry for the C1 counterexample. -/
def c1State : HardwareWallets := ⟨.bitcoin, [], fun _ => none, none⟩

/-- Concrete `List` message for the C1 counterexample: the new record's id
also occurs in the still-connected list. -/
def c1Msg : HardwareWalletMessage := .list ⟨[c1Record], ["dev-a"]⟩

/-- C1 counterexample: reconciliation is not idempotent for every
still-connected list and new-record list — when a new record's id also
occurs in the still list, the second application duplicates the record. -/
theorem c1_counterexample :
    ((c1State.update c1Msg).bind fun r =>
        (r.1.update c1Msg).map fun r2 => r2.1.list) =
      .ok [c1Record, c1Record] ∧
    ((c1State.update c1Msg).map fun r => r.1.list) = .ok [c1Record] ∧
    ([c1Record, c1Record] : List HardwareWallet) ≠ [c1Record] := by
  refine ⟨rfl, rfl, by decide⟩

/-- C1 amended: reconciliation is idempotent whenever no new record's id
occurs in the still-connected list (which holds for the lists `hw_poll`
builds, where an endpoint is either pushed to `still` or freshly
classified, never both): applying the `List` registry update twice with
the same inputs and no unlock completions yields the same tracked-device
list as applying it once. -/
theorem c1_reconcile_idempotent (s : HardwareWallets) (still : List String)
    (new : List HardwareWallet)
    (hdisj : ∀ hw ∈ new, still.contains hw.id = false) :
    ((s.update (.list ⟨new, still⟩)).bind fun r =>
        (r.1.update (.list ⟨new, still⟩)).map fun r2 => r2.1.list) =
      ((s.update (.list ⟨new, still⟩)).map fun r => r.1.list) := by
  have hnew : new.filter (fun hw => still.contains hw.id) = [] := by
    induction new with
    | nil => rfl
    | cons h t ih =>
        rw [List.filter_cons]
        have hh := hdisj h (List.mem_cons_self h t)
        simp only [hh, Bool.false_eq_true, if_false]
        exact ih (fun x hx => hdisj x (List.mem_cons_of_mem h hx))
  have key :
      ((((s.list.filter (fun hw => still.contains hw.id)) ++ new).map
            (updateRecord s.aliases)).filter (fun hw => still.contains hw.id)
          ++ new).map (updateRecord s.aliases) =
        ((s.list.filter (fun hw => still.contains hw.id)) ++ new).map
          (updateRecord s.aliases) := by
    rw [List.map_append, List.map_append, List.filter_append,
      filter_map_updateRecord, filter_map_updateRecord, filter_idem, hnew,
      List.map_nil, List.append_nil, map_updateRecord_idem]
  exact congrArg Except.ok key

/-- Concrete disjoint inputs for the C1 witness. -/
def c1WitnessMsg : HardwareWalletMessage := .list ⟨[c1Record], ["dev-b"]⟩

/-- C1 witness: `c1_reconcile_idempotent` evaluated on a registry tracking
one record with a still-connected id "dev-b" and one new record with the
distinct id "dev-a". -/
theorem c1_reconcile_idempotent_witness :
    ((c1State.update c1WitnessMsg).bind fun r =>
        (r.1.update c1WitnessMsg).map fun r2 => r2.1.list) =
      ((c1State.update c1WitnessMsg).map fun r => r.1.list) :=
  c1_reconcile_idempotent c1State ["dev-b"] [c1Record] (by decide)

/-- C10 counterexample: when an `Unsupported` record's id also occurs in
the still-connected list, the `connected_supported_hws` list does contain
the id of an `Unsupported` record, refuting the claim as stated. -/
theorem c10_counterexample :
    HardwareWallet.unsupported "x" .jade none .wrongNetwork ∈
      ([HardwareWallet.unsupported "x" .jade none .wrongNetwork] :
        List HardwareWallet) ∧
    "x" ∈ connected_supported_ids ["x"]
      [HardwareWallet.unsupported "x" .jade none .wrongNetwork] := by
  exact ⟨by decide, by decide⟩

/-- C10 amended: the connected-supported id list carried to the next cycle
contains every still-connected id and the id of every `Locked` and
`Supported` record, and nothing else; in particular the id of an
`Unsupported` record is absent unless it also occurs in the still list or
as the id of some `Locked` or `Supported` record (which `hw_poll` never
produces, since an id in the previous connected list is skipped before
classification), so such an endpoint is re-scanned from scratch in the
next cycle. -/
theorem c10_connected_ids (still : List String) (hws : List HardwareWallet) :
    (∀ i ∈ still, i ∈ connected_supported_ids still hws) ∧
    (∀ hw ∈ hws, ∀ i, lockedOrSupportedId hw = some i →
      i ∈ connected_supported_ids still hws) ∧
    (∀ i, i ∈ connected_supported_ids still hws →
      i ∈ still ∨ ∃ hw ∈ hws, lockedOrSupportedId hw = some i) ∧
    (∀ i k v reason, HardwareWallet.unsupported i k v reason ∈ hws →
      i ∉ still → (∀ hw ∈ hws, lockedOrSupportedId hw ≠ some i) →
      i ∉ connected_supported_ids still hws) := by
  simp only [connected_supported_ids]
  refine ⟨?_, ?_, ?_, ?_⟩
  · intro i hi
    exact List.mem_append_left _ hi
  · intro hw hhw i hres
    exact List.mem_append_right _ (List.mem_filterMap.mpr ⟨hw, hhw, hres⟩)
  · intro i hi
    rcases List.mem_append.mp hi with h | h
    · exact Or.inl h
    · obtain ⟨hw, hhw, hres⟩ := List.mem_filterMap.mp h
      exact Or.inr ⟨hw, hhw, hres⟩
  · intro i k v reason _ hstill hnone hcontra
    rcases List.mem_append.mp hcontra with h | h
    · exact hstill h
    · obtain ⟨hw, hhw, hres⟩ := List.mem_filterMap.mp h
      exact hnone hw hhw hres

/-- C10 witness: `c10_connected_ids` evaluated on a still list ["a"] and a
single `Unsupported` record with the distinct id "u", whose id is absent
from the resulting list. -/
theorem c10_connected_ids_witness :
    "u" ∉ connected_supported_ids ["a"]
      [HardwareWallet.unsupported "u" .jade none .wrongNetwork] :=
  (c10_connected_ids ["a"]
      [HardwareWallet.unsupported "u" .jade none .wrongNetwork]).2.2.2
    "u" .jade none .wrongNetwork (by decide) (by decide) (by decide)

end Liana
